import Mathlib

/-!
# Verification of the appstream component model (`appstream/component.py`)

A shallow embedding of the data model, parser, validator and serializer of
`appstream/component.py`.  Python objects become Lean structures; in-place
mutation becomes explicit state passing; Python exceptions become `Option`
(`none` = an exception was raised) or `Except`.  External collaborators
(`xml.etree.ElementTree.fromstring`, `dateutil.parser.parse` followed by
`strftime("%s")`) are taken as parameters of the functions that call them.
The helpers `_join_lines` and `_parse_desc` live in `appstream/utils.py`,
which is not part of the sources at hand: they are modelled from the spec
(see their doc comments).
-/

namespace Appstream

/-- An element tree node, the shape `xml.etree.ElementTree` hands to the
parser: tag name, attribute dictionary, the text between the start tag and
the first child (or the end tag), and the child elements.  `text` is `none`
when there is no text at all, matching ElementTree. -/
inductive XNode : Type where
  | node (tag : String) (attrib : List (String × String)) (text : Option String)
      (children : List XNode)

/-- The tag name of an element. -/
def XNode.tag : XNode → String
  | .node t _ _ _ => t

/-- The attribute dictionary of an element. -/
def XNode.attrib : XNode → List (String × String)
  | .node _ a _ _ => a

/-- The text of an element (`node.text`). -/
def XNode.text : XNode → Option String
  | .node _ _ s _ => s

/-- The child elements of an element. -/
def XNode.children : XNode → List XNode
  | .node _ _ _ c => c

/-- Python `k in d` / `d[k]` on a string-keyed dictionary. -/
def assoc? (d : List (String × α)) (k : String) : Option α :=
  (d.find? (fun p => p.1 = k)).map (·.2)

/-- Python `k in d` / `d[k]` on an attribute dictionary. -/
def lookup (attrib : List (String × String)) (k : String) : Option String :=
  assoc? attrib k

/-- Python dict assignment `d[k] = v`: updating an existing key keeps its
position, a new key is appended (insertion order, as in Python dicts). -/
def dictSet (d : List (String × α)) (k : String) (v : α) : List (String × α) :=
  if d.any (fun p => p.1 = k) then
    d.map (fun p => if p.1 = k then (k, v) else p)
  else d ++ [(k, v)]

/-- Python percent-s interpolation of a string-or-None value: `None` renders
as the literal text `None`. -/
def pyFmt : Option String → String
  | none => "None"
  | some s => s

/-- Python truthiness of a string-or-None field: `None` and `""` are falsy. -/
def strTruthy : Option String → Bool
  | none => false
  | some s => s ≠ ""

/-- Python whitespace for `str.strip` / `int()` stripping. -/
def charWs (c : Char) : Bool :=
  c = ' ' || c = '\t' || c = '\n' || c = '\r' || c = '\x0b' || c = '\x0c'

/-- Strip leading and trailing whitespace from a character list. -/
def trimChars (cs : List Char) : List Char :=
  ((cs.dropWhile charWs).reverse.dropWhile charWs).reverse

/-- Python `str.strip()`. -/
def strTrim (s : String) : String :=
  String.mk (trimChars s.data)

/-- Split a character list at newline characters (the shape of Python
`s.split('\n')`: an empty input yields one empty line). -/
def splitNl (cs : List Char) : List (List Char) :=
  cs.foldr (fun c acc =>
    if c = '\n' then [] :: acc
    else match acc with
      | h :: t => (c :: h) :: t
      | [] => [[c]]) [[]]

/-- Join strings with single spaces (Python `' '.join`). -/
def interSpace : List String → String
  | [] => ""
  | h :: t => t.foldl (fun acc s => acc ++ " " ++ s) h

/-- Python `str.lower()` (ASCII case mapping). -/
def strToLower (s : String) : String :=
  String.mk (s.data.map Char.toLower)

/-- One list is a prefix of another (Boolean). -/
def listStartsWith : List Char → List Char → Bool
  | [], _ => true
  | _ :: _, [] => false
  | a :: as, b :: bs => a = b && listStartsWith as bs

/-- Python `s.startswith(pre)`. -/
def strStartsWith (s pre : String) : Bool :=
  listStartsWith pre.data s.data

/-- Python `s[n:]` for a character offset. -/
def strDrop (s : String) (n : Nat) : String :=
  String.mk (s.data.drop n)

/-- Value of a decimal digit character, `none` otherwise. -/
def digitVal? (c : Char) : Option Nat :=
  if c.isDigit then some (c.toNat - 48) else none

/-- Fold a digit list into a number; `none` if a non-digit occurs. -/
def decNat? (cs : List Char) : Option Nat :=
  cs.foldl (fun acc c =>
    match acc, digitVal? c with
    | some a, some d => some (10 * a + d)
    | _, _ => none) (some 0)

/-- Python `int(s)`: optional sign followed by decimal digits (surrounding
whitespace stripped); `none` models the `ValueError` raised otherwise. -/
def pyInt? (s : String) : Option Int :=
  match trimChars s.data with
  | [] => none
  | '-' :: rest =>
    if rest.isEmpty then none else (decNat? rest).map (fun n => -(n : Int))
  | '+' :: rest =>
    if rest.isEmpty then none else (decNat? rest).map (fun n => (n : Int))
  | cs => (decNat? cs).map (fun n => (n : Int))

/-- Python `int(x)` applied to the `.text` of an element: `None` raises
(`TypeError`), modelled as `none`. -/
def pyIntText? (t : Option String) : Option Int :=
  t.bind pyInt?

/-- Value of a hexadecimal digit character, `none` otherwise. -/
def hexDigitVal? (c : Char) : Option Nat :=
  if c.isDigit then some (c.toNat - 48)
  else if 'a' ≤ c ∧ c ≤ 'f' then some (c.toNat - 87)
  else if 'A' ≤ c ∧ c ≤ 'F' then some (c.toNat - 55)
  else none

/-- Python `int(s, 16)` restricted to a plain digit string: nonempty
hexadecimal digits; `none` models the `ValueError` raised otherwise. -/
def hexNat? (s : String) : Option Nat :=
  if s.data.isEmpty then none
  else s.data.foldl (fun acc c =>
    match acc, hexDigitVal? c with
    | some a, some d => some (16 * a + d)
    | _, _ => none) (some 0)

/-- Modelled from the spec: `_join_lines` from `appstream/utils.py` (not under
the sources at hand).  Per §4.1, each line has leading/trailing whitespace
trimmed and the nonempty lines are joined with single spaces, collapsing
indentation and line wrapping into one logical line. -/
def joinLines (s : String) : String :=
  interSpace (((splitNl s.data).map (fun l => String.mk (trimChars l))).filter
    (fun l => l ≠ ""))

/-- Model of `_join_lines` applied to the `.text` field of an element. -/
def joinLines? (t : Option String) : Option String :=
  t.map joinLines

/-- Modelled from the spec: one `<li>` item as rendered by `_parse_desc` from
`appstream/utils.py` (not under the sources at hand): minimal markup with the
item text joined into one line. -/
def descItem (li : XNode) : String :=
  if li.tag = "li" then "<li>" ++ joinLines (li.text.getD "") ++ "</li>" else ""

/-- Modelled from the spec: one block child as rendered by `_parse_desc`:
`<p>`, `<ul>`, `<ol>` are serialized back to their minimal markup form with no
extraneous whitespace between tags. -/
def descChild (c : XNode) : String :=
  if c.tag = "p" then "<p>" ++ joinLines (c.text.getD "") ++ "</p>"
  else if c.tag = "ul" then "<ul>" ++ String.join (c.children.map descItem) ++ "</ul>"
  else if c.tag = "ol" then "<ol>" ++ String.join (c.children.map descItem) ++ "</ol>"
  else ""

/-- Modelled from the spec: `_parse_desc` from `appstream/utils.py` (not under
the sources at hand).  A description-bearing element with block children is
rendered to canonical flat markup; plain text with no block children is
wrapped in a single implied `<p>` (observed: bare caption text `No markup`
becomes `<p>No markup</p>`). -/
def parseDesc (node : XNode) : String :=
  match node.children with
  | [] => "<p>" ++ joinLines (node.text.getD "") ++ "</p>"
  | cs => String.join (cs.map descChild)

/-- Removal of the first element satisfying `p`, keeping the rest of the
list: the loop-remove-break idiom of `add_checksum` and `add_image`. -/
def removeFirst (p : α → Bool) : List α → List α
  | [] => []
  | x :: xs => if p x then xs else x :: removeFirst p xs

/-- Python `Checksum` from `appstream/component.py`: defaults from `__init__`. -/
structure Checksum where
  kind : String := "sha1"
  target : Option String := none
  value : Option String := none
  filename : Option String := none
deriving DecidableEq, Repr

/-- Python `Checksum.to_xml`: note the literal `type="sha1"` and the unconditional
`%s` interpolation of `filename`, `target` and the value text. -/
def Checksum.toXml (c : Checksum) : String :=
  "        <checksum filename=\"" ++ pyFmt c.filename ++ "\" target=\"" ++
    pyFmt c.target ++ "\" type=\"sha1\">" ++ pyFmt c.value ++ "</checksum>\n"

/-- Python `Checksum._parse_tree`. -/
def Checksum.parseTree (node : XNode) (c : Checksum) : Checksum :=
  let c := match lookup node.attrib "filename" with
    | some v => { c with filename := some v }
    | none => c
  let c := match lookup node.attrib "type" with
    | some v => { c with kind := v }
    | none => c
  let c := match lookup node.attrib "target" with
    | some v => { c with target := some v }
    | none => c
  { c with value := node.text }

/-- Python `Release` from `appstream/component.py`: defaults from `__init__`. -/
structure Release where
  version : Option String := none
  description : Option String := none
  timestamp : Int := 0
  checksums : List Checksum := []
  location : Option String := none
  size_installed : Int := 0
  size_download : Int := 0
  urgency : Option String := none
deriving DecidableEq, Repr

/-- Python `Release.get_checksum_by_target`: first checksum whose `target` equals the
argument, else `None`. -/
def Release.get_checksum_by_target (r : Release) (target : Option String) : Option Checksum :=
  r.checksums.find? (fun c => c.target == target)

/-- Python `Release.add_checksum`: remove the first existing checksum with the same
`target` (if any), then append the new one. -/
def Release.add_checksum (r : Release) (csum : Checksum) : Release :=
  { r with checksums :=
      removeFirst (fun t => t.target == csum.target) r.checksums ++ [csum] }

/-- Python `Image` from `appstream/component.py`: defaults from `__init__`. -/
structure Image where
  kind : Option String := none
  width : Int := 0
  height : Int := 0
  url : Option String := none
deriving DecidableEq, Repr

/-- Python `Image.to_xml`. -/
def Image.toXml (im : Image) : String :=
  "        <image" ++
    (if strTruthy im.kind then " type=\"" ++ pyFmt im.kind ++ "\"" else "") ++
    (if im.width > 0 then " width=\"" ++ toString im.width ++ "\"" else "") ++
    (if im.height > 0 then " height=\"" ++ toString im.height ++ "\"" else "") ++
    ">" ++ (if strTruthy im.url then pyFmt im.url else "") ++ "</image>\n"

/-- Python `Image._parse_tree`: `none` models the `ValueError` of a failing `int()`
conversion of `width`/`height`. -/
def Image.parseTree (node : XNode) (im : Image) : Option Image := do
  let im := match lookup node.attrib "type" with
    | some v => { im with kind := some v }
    | none => im
  let im ← match lookup node.attrib "width" with
    | some v => (pyInt? v).map (fun n => { im with width := n })
    | none => some im
  let im ← match lookup node.attrib "height" with
    | some v => (pyInt? v).map (fun n => { im with height := n })
    | none => some im
  some { im with url := node.text }

/-- Python `Screenshot` from `appstream/component.py`: defaults from `__init__`. -/
structure Screenshot where
  kind : Option String := none
  caption : Option String := none
  images : List Image := []
deriving DecidableEq, Repr

/-- Python `Screenshot.get_image_by_kind`. -/
def Screenshot.get_image_by_kind (s : Screenshot) (kind : Option String) : Option Image :=
  s.images.find? (fun im => im.kind == kind)

/-- Python `Screenshot.add_image`: remove the first existing image with the same
`kind` (if any), then append the new one. -/
def Screenshot.add_image (s : Screenshot) (im : Image) : Screenshot :=
  { s with images := removeFirst (fun t => t.kind == im.kind) s.images ++ [im] }

/-- Python `Screenshot._parse_tree`. -/
def Screenshot.parseTree (node : XNode) (s : Screenshot) : Option Screenshot := do
  let s := match lookup node.attrib "type" with
    | some v => { s with kind := some v }
    | none => s
  node.children.foldlM (fun s c3 =>
    if c3.tag = "caption" then some { s with caption := some (parseDesc c3) }
    else if c3.tag = "image" then
      (Image.parseTree c3 {}).map s.add_image
    else some s) s

/-- Python `Screenshot.to_xml`. -/
def Screenshot.toXml (s : Screenshot) : String :=
  "      <screenshot" ++
    (if strTruthy s.kind then " type=\"" ++ pyFmt s.kind ++ "\"" else "") ++ ">\n" ++
    String.join (s.images.map Image.toXml) ++
    (if strTruthy s.caption then "        <caption>" ++ pyFmt s.caption ++ "</caption>\n" else "") ++
    "      </screenshot>\n"

/-- Python `Provide` from `appstream/component.py`: defaults from `__init__`. -/
structure Provide where
  kind : Option String := none
  value : Option String := none
deriving DecidableEq, Repr

/-- Python `Provide._parse_tree`: only a `firmware` tag is recognized; the value is
lower-cased (`none` models the `AttributeError` of `.lower()` on `None`). -/
def Provide.parseTree (node : XNode) (p : Provide) : Option Provide :=
  if node.tag = "firmware" then
    let p := if lookup node.attrib "type" = some "flashed" then
        { p with kind := some "firmware-flashed" }
      else p
    match node.text with
    | none => none
    | some t => some { p with value := some (strToLower t) }
  else some p

/-- Python `Require` from `appstream/component.py`: defaults from `__init__`. -/
structure Require where
  kind : Option String := none
  compare : Option String := none
  version : Option String := none
  value : Option String := none
deriving DecidableEq, Repr

/-- Python `Require._parse_tree`: the kind is always the own tag name of the element. -/
def Require.parseTree (node : XNode) (p : Require) : Require :=
  let p := { p with kind := some node.tag }
  let p := match lookup node.attrib "compare" with
    | some v => { p with compare := some v }
    | none => p
  let p := match lookup node.attrib "version" with
    | some v => { p with version := some v }
    | none => p
  { p with value := node.text }

/-- Python `Review` from `appstream/component.py`: defaults from `__init__`. -/
structure Review where
  id : Option String := none
  summary : Option String := none
  description : Option String := none
  locale : Option String := none
  karma : Int := 0
  score : Int := 0
  rating : Int := 0
  version : Option String := none
  reviewer_id : Option String := none
  reviewer_name : Option String := none
  date : Option Int := none
  metadata : List (String × Option String) := []
deriving DecidableEq, Repr

/-- One `<metadata>` block child inside `Review._parse_tree`. -/
def Review.parseMetadata (m : Review) (c3 : XNode) : Review :=
  c3.children.foldl (fun m c4 =>
    if c4.tag = "value" then
      match lookup c4.attrib "key" with
      | some k => { m with metadata := dictSet m.metadata k c4.text }
      | none => m
    else m) m

/-- One child element inside the loop of `Review._parse_tree`. -/
def Review.parseChild (m : Review) (c3 : XNode) : Review :=
  let m := if c3.tag = "lang" then { m with locale := c3.text } else m
  let m := if c3.tag = "version" then { m with version := c3.text } else m
  let m := if c3.tag = "reviewer_id" then { m with reviewer_id := c3.text } else m
  let m := if c3.tag = "reviewer_name" then { m with reviewer_name := c3.text } else m
  let m := if c3.tag = "summary" then { m with summary := c3.text } else m
  let m := if c3.tag = "description" then { m with description := some (parseDesc c3) } else m
  if c3.tag = "metadata" then Review.parseMetadata m c3 else m

/-- Python `Review._parse_tree`.  `dateFn` stands for the external
`dateutil.parser.parse` followed by `int(dt.strftime("%s"))`; `none` models a
raised exception (bad date text or a failing `int()`). -/
def Review.parseTree (dateFn : String → Option Int) (node : XNode) (m : Review) :
    Option Review := do
  let m ← match lookup node.attrib "date" with
    | some v => (dateFn v).map (fun n => { m with date := some n })
    | none => some m
  let m := match lookup node.attrib "id" with
    | some v => { m with id := some v }
    | none => m
  let m ← match lookup node.attrib "karma" with
    | some v => (pyInt? v).map (fun n => { m with karma := n })
    | none => some m
  let m ← match lookup node.attrib "score" with
    | some v => (pyInt? v).map (fun n => { m with score := n })
    | none => some m
  let m ← match lookup node.attrib "rating" with
    | some v => (pyInt? v).map (fun n => { m with rating := n })
    | none => some m
  some (node.children.foldl Review.parseChild m)

/-- Truthiness of `Review.date` (`None` and `0` are falsy). -/
def intTruthy : Option Int → Bool
  | none => false
  | some i => i ≠ 0

/-- Python `Review.to_xml`.  `isoFn` stands for the external
the datetime ISO formatting of a Unix timestamp. -/
def Review.toXml (isoFn : Int → String) (m : Review) : String :=
  "      <review" ++
    (if intTruthy m.date then " date=\"" ++ isoFn (m.date.getD 0) ++ "\"" else "") ++
    (if m.rating ≠ 0 then " rating=\"" ++ toString m.rating ++ "\"" else "") ++
    (if m.score ≠ 0 then " score=\"" ++ toString m.score ++ "\"" else "") ++
    (if m.karma ≠ 0 then " karma=\"" ++ toString m.karma ++ "\"" else "") ++
    (if strTruthy m.id then " id=\"" ++ pyFmt m.id ++ "\"" else "") ++
    ">\n" ++
    (if strTruthy m.summary then "        <summary>" ++ pyFmt m.summary ++ "</summary>\n" else "") ++
    (if strTruthy m.description then "        <description>" ++ pyFmt m.description ++ "</description>\n" else "") ++
    (if strTruthy m.version then "        <version>" ++ pyFmt m.version ++ "</version>\n" else "") ++
    (if strTruthy m.reviewer_id then "        <reviewer_id>" ++ pyFmt m.reviewer_id ++ "</reviewer_id>\n" else "") ++
    (if strTruthy m.reviewer_name then "        <reviewer_name>" ++ pyFmt m.reviewer_name ++ "</reviewer_name>\n" else "") ++
    (if strTruthy m.locale then "        <lang>" ++ pyFmt m.locale ++ "</lang>\n" else "") ++
    (if m.metadata.length > 0 then
      "        <metadata>\n" ++
      String.join (m.metadata.map (fun kv =>
        "          <value key=\"" ++ kv.1 ++ "\">" ++ pyFmt kv.2 ++ "</value>\n")) ++
      "        </metadata>\n"
    else "") ++
    "      </review>\n"

/-- The `timestamp` attribute stage of `Release._parse_tree`: the attribute
value is used verbatim through `int()`.  `none` models the `ValueError` of a
failing conversion. -/
def Release.attrTimestamp (node : XNode) (r : Release) : Option Release :=
  match lookup node.attrib "timestamp" with
  | some v => (pyInt? v).map (fun n => { r with timestamp := n })
  | none => some r

/-- The `date` attribute stage of `Release._parse_tree`, evaluated after the
`timestamp` stage (so a `date` attribute overwrites a `timestamp` attribute
when both are present).  `dateFn` stands for the external
`dateutil.parser.parse` followed by `int(dt.strftime("%s"))`; `none` models a
raised exception. -/
def Release.attrDate (dateFn : String → Option Int) (node : XNode) (r : Release) :
    Option Release :=
  match lookup node.attrib "date" with
  | some v => (dateFn v).map (fun n => { r with timestamp := n })
  | none => some r

/-- The `urgency` attribute stage of `Release._parse_tree`. -/
def Release.attrUrgency (node : XNode) (r : Release) : Release :=
  match lookup node.attrib "urgency" with
  | some v => { r with urgency := some v }
  | none => r

/-- The `version` attribute stage of `Release._parse_tree`, with the hex
fix-up: a version beginning with `0x` is reinterpreted through
`int(version[2:], 16)` and rewritten as the decimal string of that value.
`none` models the `ValueError` of bad hex digits. -/
def Release.attrVersion (node : XNode) (r : Release) : Option Release :=
  match lookup node.attrib "version" with
  | some v =>
    if strStartsWith v "0x" then
      (hexNat? (strDrop v 2)).map (fun n => { r with version := some (toString n) })
    else some { r with version := some v }
  | none => some r

/-- The attribute part of `Release._parse_tree` in source order: `timestamp`,
`date`, `urgency`, `version`. -/
def Release.parseAttrs (dateFn : String → Option Int) (node : XNode) (r : Release) :
    Option Release :=
  (Release.attrTimestamp node r).bind (fun r1 =>
    (Release.attrDate dateFn node r1).bind (fun r2 =>
      Release.attrVersion node (Release.attrUrgency node r2)))

/-- The `installed` half of the size handling in `Release._parse_tree`. -/
def Release.sizeInstalled (t : String) (c3 : XNode) (r : Release) : Option Release :=
  if t = "installed" then
    (pyIntText? c3.text).map (fun n => { r with size_installed := n })
  else some r

/-- The `download` half of the size handling in `Release._parse_tree` (both
halves are checked in sequence, as in the source). -/
def Release.sizeDownload (t : String) (c3 : XNode) (r : Release) : Option Release :=
  if t = "download" then
    (pyIntText? c3.text).map (fun n => { r with size_download := n })
  else some r

/-- One child element inside the loop of `Release._parse_tree`: description, size
(requiring a `type` attribute of `installed` or `download`) or checksum. -/
def Release.parseChild (r : Release) (c3 : XNode) : Option Release :=
  let r1 := if c3.tag = "description" then { r with description := some (parseDesc c3) } else r
  if c3.tag = "size" then
    match lookup c3.attrib "type" with
    | none => some r1
    | some t => (Release.sizeInstalled t c3 r1).bind (Release.sizeDownload t c3)
  else if c3.tag = "checksum" then
    some (r1.add_checksum (Checksum.parseTree c3 {}))
  else some r1

/-- Python `Release._parse_tree`: the attribute stages, then the child loop. -/
def Release.parseTree (dateFn : String → Option Int) (node : XNode) (r : Release) :
    Option Release :=
  (Release.parseAttrs dateFn node r).bind (fun r1 =>
    node.children.foldlM Release.parseChild r1)

/-- Python `Release.to_xml`. -/
def Release.toXml (r : Release) : String :=
  "      <release" ++
    (if strTruthy r.version then " version=\"" ++ pyFmt r.version ++ "\"" else "") ++
    (if r.timestamp ≠ 0 then " timestamp=\"" ++ toString r.timestamp ++ "\"" else "") ++
    (if strTruthy r.urgency then " urgency=\"" ++ pyFmt r.urgency ++ "\"" else "") ++
    ">\n" ++
    (if r.size_installed > 0 then
      "        <size type=\"installed\">" ++ toString r.size_installed ++ "</size>\n" else "") ++
    (if r.size_download > 0 then
      "        <size type=\"download\">" ++ toString r.size_download ++ "</size>\n" else "") ++
    (if strTruthy r.location then "        <location>" ++ pyFmt r.location ++ "</location>\n" else "") ++
    String.join (r.checksums.map Checksum.toXml) ++
    (if strTruthy r.description then
      "        <description>" ++ pyFmt r.description ++ "</description>\n" else "") ++
    "      </release>\n"

/-- The `bundle` record built by `Component.parse` (`type`/`runtime`/`sdk`
default to the literal string `unknown` when absent). -/
structure Bundle where
  type : String := "unknown"
  runtime : String := "unknown"
  sdk : String := "unknown"
  value : Option String := none
deriving DecidableEq, Repr

/-- Python `Component` from `appstream/component.py`: defaults from `__init__`.
`icons` maps each `type` key to the list of attribute records accumulated for
it (the record values are optional because the `value` entry holds the
element text).  `screenshots` holds the screenshot values in order; see
`add_screenshot_ref` for the object-identity semantics of
`Component.add_screenshot`. -/
structure Component where
  id : Option String := none
  update_contact : Option String := none
  kind : Option String := none
  provides : List Provide := []
  requires : List Require := []
  name : Option String := none
  pkgname : Option String := none
  summary : Option String := none
  description : Option String := none
  urls : List (String × Option String) := []
  icons : List (String × List (List (String × Option String))) := []
  metadata_license : Option String := none
  project_license : Option String := none
  developer_name : Option String := none
  releases : List Release := []
  reviews : List Review := []
  screenshots : List Screenshot := []
  kudos : List (Option String) := []
  keywords : List (Option String) := []
  categories : List (Option String) := []
  custom : List (String × Option String) := []
  bundle : Option Bundle := none
deriving DecidableEq, Repr

/-- Python `Component.add_release`: a no-op when an existing release shares the
`version`, else the release is appended. -/
def Component.add_release (c : Component) (release : Release) : Component :=
  if c.releases.any (fun r => r.version == release.version) then c
  else { c with releases := c.releases ++ [release] }

/-- Python `Component.add_review`: a no-op when an existing review shares the `id`,
else the review is appended. -/
def Component.add_review (c : Component) (review : Review) : Component :=
  if c.reviews.any (fun r => r.id == review.id) then c
  else { c with reviews := c.reviews ++ [review] }

/-- Python `Component.add_provide`: a no-op when an existing provide shares the
`value`, else the provide is appended. -/
def Component.add_provide (c : Component) (provide : Provide) : Component :=
  if c.provides.any (fun p => p.value == provide.value) then c
  else { c with provides := c.provides ++ [provide] }

/-- Python `Component.add_require`: a no-op when an existing require shares the
`value`, else the require is appended. -/
def Component.add_require (c : Component) (require : Require) : Component :=
  if c.requires.any (fun p => p.value == require.value) then c
  else { c with requires := c.requires ++ [require] }

/-- Python `Component.add_screenshot`, with Python object identity made explicit:
`Screenshot` defines no `__eq__`, so `screenshot in self.screenshots`
compares object references, not field values.  The list holds references
(naturals) and `store` (in the theorems below) gives the field values held
at each reference. -/
def add_screenshot_ref (screenshots : List Nat) (r : Nat) : List Nat :=
  if screenshots.contains r then screenshots else screenshots ++ [r]

/-- Python `Component.get_provides_by_kind`. -/
def Component.get_provides_by_kind (c : Component) (kind : Option String) : List Provide :=
  c.provides.filter (fun p => p.kind == kind)

/-- Python `Component.get_require_by_kind`. -/
def Component.get_require_by_kind (c : Component) (kind value : Option String) : Option Require :=
  c.requires.find? (fun r => r.kind == kind && r.value == value)

/-- The license allow-list of `Component.validate`. -/
def valid_licenses : List String :=
  ["CC0-1.0", "CC-BY-3.0", "CC-BY-4.0", "CC-BY-SA-3.0", "CC-BY-SA-4.0",
   "GFDL-1.1", "GFDL-1.2", "GFDL-1.3", "FSFAP"]

/-- The per-release loop at the end of `Component.validate`. -/
def validateReleases : List Release → Except String Unit
  | [] => .ok ()
  | rel :: rest =>
    if ¬ strTruthy rel.version then .error "No version in <release> tag"
    else if rel.timestamp = 0 then .error "No timestamp in <release> tag"
    else validateReleases rest

/-- Python `Component.validate`: the checks in source order, failing fast with the
first violated rule (a raised `ValidationError` becomes `.error`). -/
def Component.validate (c : Component) : Except String Unit :=
  if ¬ strTruthy c.id then .error "No <id> tag"
  else if ¬ strTruthy c.name then .error "No <name> tag"
  else if ¬ strTruthy c.summary then .error "No <summary> tag"
  else if ¬ strTruthy c.description then .error "No <description> tag"
  else if c.kind = some "firmware" ∧ c.provides.isEmpty then .error "No <provides> tag"
  else if c.kind = some "firmware" ∧ c.releases.isEmpty then .error "No <release> tag"
  else if c.kind = some "desktop" ∧ c.screenshots.isEmpty then .error "No <screenshot> tag"
  else if ¬ strTruthy c.metadata_license then .error "No <metadata_license> tag"
  else if ¬ valid_licenses.any (fun l => c.metadata_license == some l) then
    .error "Invalid <metadata_license> tag"
  else if ¬ strTruthy c.project_license then .error "No <project_license> tag"
  else if ¬ strTruthy c.developer_name then .error "No <developer_name> tag"
  else validateReleases c.releases

/-- One `require` entry as rendered inside `Component.to_xml` (entries with a
falsy `kind` are skipped). -/
def requireXml (p : Require) : String :=
  if ¬ strTruthy p.kind then ""
  else
    "      <" ++ pyFmt p.kind ++
    (if strTruthy p.compare then " compare=\"" ++ pyFmt p.compare ++ "\"" else "") ++
    (if strTruthy p.version then " version=\"" ++ pyFmt p.version ++ "\"" else "") ++
    ">" ++ (if strTruthy p.value then pyFmt p.value else "") ++
    "</" ++ pyFmt p.kind ++ ">\n"

/-- Python `Component.to_xml`.  `isoFn` stands for the external
the datetime ISO formatting of a Unix timestamp used by `Review.to_xml`.  The result
is `none` when the Python code raises before returning: a truthy `bundle`
makes the `%`-interpolation with the malformed format string
`<bundle type="%(type)" ...>` raise `ValueError`, and a non-empty `icons`
mapping (as populated by `parse`, which stores a list of records per key)
makes the icon record access (a string index into a list) raise `TypeError`. -/
def Component.toXml (isoFn : Int → String) (c : Component) : Option String :=
  if c.bundle.isSome then none
  else if ¬ c.icons.isEmpty then none
  else some (
    "  <component type=\"firmware\">\n" ++
    (if strTruthy c.id then "    <id>" ++ pyFmt c.id ++ "</id>\n" else "") ++
    (if strTruthy c.pkgname then "    <pkgname>" ++ pyFmt c.pkgname ++ "</pkgname>\n" else "") ++
    (if strTruthy c.name then "    <name>" ++ pyFmt c.name ++ "</name>\n" else "") ++
    (if strTruthy c.summary then "    <summary>" ++ pyFmt c.summary ++ "</summary>\n" else "") ++
    (if strTruthy c.developer_name then
      "    <developer_name>" ++ pyFmt c.developer_name ++ "</developer_name>\n" else "") ++
    (if strTruthy c.project_license then
      "    <project_license>" ++ pyFmt c.project_license ++ "</project_license>\n" else "") ++
    (if strTruthy c.description then
      "    <description>" ++ pyFmt c.description ++ "</description>\n" else "") ++
    String.join (c.urls.map (fun kv =>
      "    <url type=\"" ++ kv.1 ++ "\">" ++ pyFmt kv.2 ++ "</url>\n")) ++
    (if c.releases.length > 0 then
      "    <releases>\n" ++ String.join (c.releases.map Release.toXml) ++ "    </releases>\n"
    else "") ++
    (if c.reviews.length > 0 then
      "    <reviews>\n" ++ String.join (c.reviews.map (Review.toXml isoFn)) ++ "    </reviews>\n"
    else "") ++
    (if c.screenshots.length > 0 then
      "    <screenshots>\n" ++ String.join (c.screenshots.map Screenshot.toXml) ++
      "    </screenshots>\n"
    else "") ++
    (if c.kudos.length > 0 then
      "    <kudos>\n" ++
      String.join (c.kudos.map (fun k => "      <kudo>" ++ pyFmt k ++ "</kudo>\n")) ++
      "    </kudos>\n"
    else "") ++
    (if c.keywords.length > 0 then
      "    <keywords>\n" ++
      String.join (c.keywords.map (fun k => "      <keyword>" ++ pyFmt k ++ "</keyword>\n")) ++
      "    </keywords>\n"
    else "") ++
    (if c.categories.length > 0 then
      "    <categories>\n" ++
      String.join (c.categories.map (fun k => "      <category>" ++ pyFmt k ++ "</category>\n")) ++
      "    </categories>\n"
    else "") ++
    (if c.provides.length > 0 then
      "    <provides>\n" ++
      String.join (c.provides.map (fun p =>
        "      <firmware type=\"flashed\">" ++ pyFmt p.value ++ "</firmware>\n")) ++
      "    </provides>\n"
    else "") ++
    (if c.requires.length > 0 then
      "    <requires>\n" ++ String.join (c.requires.map requireXml) ++ "    </requires>\n"
    else "") ++
    (if c.custom.length > 0 then
      "    <custom>\n" ++
      String.join (c.custom.map (fun kv =>
        "      <value key=\"" ++ kv.1 ++ "\">" ++ pyFmt kv.2 ++ "</value>\n")) ++
      "    </custom>\n"
    else "") ++
    "  </component>\n")

/-- One top-level child element of the dispatch loop in `Component.parse`.
`none` models a raised exception while handling the element.  Screenshot
dedup note: `add_screenshot` compares object identity, and each parsed
screenshot is a freshly allocated object, so during parsing the membership
test never fires and every parsed screenshot is appended. -/
def Component.parseChild (dateFn : String → Option Int) (c : Component) (c1 : XNode) :
    Option Component :=
  if c1.tag = "id" then some { c with id := c1.text }
  else if c1.tag = "updatecontact" ∨ c1.tag = "update_contact" then
    some { c with update_contact := c1.text }
  else if c1.tag = "metadata_license" then some { c with metadata_license := c1.text }
  else if c1.tag = "releases" then
    c1.children.foldlM (fun c c2 =>
      if c2.tag = "release" then
        (Release.parseTree dateFn c2 {}).map c.add_release
      else some c) c
  else if c1.tag = "reviews" then
    c1.children.foldlM (fun c c2 =>
      if c2.tag = "review" then
        (Review.parseTree dateFn c2 {}).map c.add_review
      else some c) c
  else if c1.tag = "screenshots" then
    c1.children.foldlM (fun c c2 =>
      if c2.tag = "screenshot" then
        (Screenshot.parseTree c2 {}).map (fun ss =>
          { c with screenshots := c.screenshots ++ [ss] })
      else some c) c
  else if c1.tag = "provides" then
    c1.children.foldlM (fun c c2 =>
      (Provide.parseTree c2 {}).map c.add_provide) c
  else if c1.tag = "requires" then
    some (c1.children.foldl (fun c c2 =>
      c.add_require (Require.parseTree c2 {})) c)
  else if c1.tag = "kudos" then
    some (c1.children.foldl (fun c c2 =>
      if c2.tag = "kudo" then { c with kudos := c.kudos ++ [c2.text] } else c) c)
  else if c1.tag = "keywords" then
    some (c1.children.foldl (fun c c2 =>
      if c2.tag = "keyword" then { c with keywords := c.keywords ++ [c2.text] } else c) c)
  else if c1.tag = "categories" then
    some (c1.children.foldl (fun c c2 =>
      if c2.tag = "category" then { c with categories := c.categories ++ [c2.text] } else c) c)
  else if c1.tag = "custom" then
    some (c1.children.foldl (fun c c2 =>
      if c2.tag = "value" then
        match lookup c2.attrib "key" with
        | some k => { c with custom := dictSet c.custom k c2.text }
        | none => c
      else c) c)
  else if c1.tag = "project_license" ∨ c1.tag = "licence" then
    some { c with project_license := c1.text }
  else if c1.tag = "developer_name" then some { c with developer_name := joinLines? c1.text }
  else if c1.tag = "name" ∧ ¬ strTruthy c.name then some { c with name := joinLines? c1.text }
  else if c1.tag = "pkgname" ∧ ¬ strTruthy c.pkgname then
    some { c with pkgname := joinLines? c1.text }
  else if c1.tag = "summary" ∧ ¬ strTruthy c.summary then
    some { c with summary := joinLines? c1.text }
  else if c1.tag = "description" ∧ ¬ strTruthy c.description then
    some { c with description := some (parseDesc c1) }
  else if c1.tag = "url" then
    some { c with urls := dictSet c.urls ((lookup c1.attrib "type").getD "homepage") c1.text }
  else if c1.tag = "icon" then
    -- the attribute dictionary loses its type entry, gains a value entry
    -- holding the text, and is appended to the per-key icon record list
    let key := (lookup c1.attrib "type").getD "unknown"
    let rec0 := (c1.attrib.filter (fun p => p.1 ≠ "type")).map (fun p => (p.1, some p.2))
    let rec1 := dictSet rec0 "value" c1.text
    some { c with icons := dictSet c.icons key (((assoc? c.icons key).getD []) ++ [rec1]) }
  else if c1.tag = "bundle" then
    let b : Bundle :=
      { type := (lookup c1.attrib "type").getD "unknown"
        runtime := (lookup c1.attrib "runtime").getD "unknown"
        sdk := (lookup c1.attrib "sdk").getD "unknown"
        value := c1.text }
    some { c with bundle := some b }
  else some c

/-- The element-tree part of `Component.parse`: the root element `type` attribute
sets `kind`, then each child is dispatched by tag name.  `none` models a
raised exception during the walk. -/
def Component.parseTree (dateFn : String → Option Int) (c : Component) (root : XNode) :
    Option Component :=
  let c := match lookup root.attrib "type" with
    | some t => { c with kind := some t }
    | none => c
  root.children.foldlM (Component.parseChild dateFn) c

/-- The input to `Component.parse`: XML text or an already-parsed tree. -/
inductive ParseInput : Type where
  | text (s : String)
  | tree (t : XNode)

/-- The outcomes of a failing `Component.parse`: `parseError` is the
ParseError of the library itself (raised only for text input the XML parser cannot
read, carrying the underlying syntax error message); `otherError` stands for
any other exception escaping the tree walk (`ValueError`, `TypeError`, ...),
which is never a `ParseError`. -/
inductive PyFailure : Type where
  | parseError (msg : String)
  | otherError
deriving DecidableEq, Repr

/-- Python `Component.parse`.  `fromstring` stands for the external
`xml.etree.ElementTree.fromstring`; its error is the stdlib syntax error
message.  On a `fromstring` failure, `ParseError(str(e))` is raised before
any field of the component has been assigned, so the pre-state `c` is
untouched and no component is produced. -/
def Component.parse (fromstring : String → Except String XNode)
    (dateFn : String → Option Int) (c : Component) (input : ParseInput) :
    Except PyFailure Component :=
  match input with
  | .text s =>
    match fromstring s with
    | .error e => .error (.parseError e)
    | .ok root =>
      match Component.parseTree dateFn c root with
      | none => .error .otherError
      | some c2 => .ok c2
  | .tree root =>
    match Component.parseTree dateFn c root with
    | none => .error .otherError
    | some c2 => .ok c2

/-- Characters allowed in an XML tag or attribute name (the subset this
schema uses). -/
def isNameChar (c : Char) : Bool :=
  c.isAlphanum || c = '_' || c = '-' || c = '.' || c = ':'

/-- Skip XML whitespace. -/
def skipWs (cs : List Char) : List Char :=
  cs.dropWhile (fun c => c = ' ' || c = '\n' || c = '\t' || c = '\r')

/-- Attribute list of a start tag: `name="value"` pairs up to (but not
consuming) the closing `>` or `/>`.  Fuel-structural; `none` on malformed
input or fuel exhaustion. -/
def parseXmlAttrs : Nat → List Char → Option (List (String × String) × List Char)
  | 0, _ => none
  | fuel + 1, cs =>
    match skipWs cs with
    | '>' :: rest => some ([], '>' :: rest)
    | '/' :: '>' :: rest => some ([], '/' :: '>' :: rest)
    | c :: cs0 =>
      if isNameChar c then
        let (nm, cs1) := (c :: cs0).span isNameChar
        match skipWs cs1 with
        | '=' :: cs2 =>
          match skipWs cs2 with
          | '"' :: cs3 =>
            let (v, cs4) := cs3.span (fun ch => ch ≠ '"')
            match cs4 with
            | '"' :: cs5 =>
              (parseXmlAttrs fuel cs5).map (fun pr =>
                ((String.mk nm, String.mk v) :: pr.1, pr.2))
            | _ => none
          | _ => none
        | _ => none
      else none
    | [] => none

mutual

/-- One element: `<name attrs>body</name>` or `<name attrs/>`.  Returns the
node and the remaining input.  Models what `xml.etree.ElementTree.fromstring`
produces on the XML subset this serializer emits (no entity references, no
comments, no processing instructions). -/
def parseXmlElement : Nat → List Char → Option (XNode × List Char)
  | 0, _ => none
  | fuel + 1, cs =>
    match cs with
    | '<' :: cs1 =>
      let (nm, cs2) := cs1.span isNameChar
      if nm.isEmpty then none
      else
        match parseXmlAttrs fuel cs2 with
        | none => none
        | some (attrs, cs3) =>
          match cs3 with
          | '/' :: '>' :: cs4 => some (XNode.node (String.mk nm) attrs none [], cs4)
          | '>' :: cs4 =>
            match parseXmlBody fuel (String.mk nm) cs4 with
            | none => none
            | some (txt, childs, cs5) =>
              some (XNode.node (String.mk nm) attrs txt childs, cs5)
          | _ => none
    | _ => none

/-- The body of an element up to and including its end tag `</tag>`: returns
the text found at the start of the body (`none` when empty, as ElementTree
does), the child elements, and the remaining input.  Text after a child (a
tail) is only whitespace in the fragments this serializer emits and is
discarded. -/
def parseXmlBody : Nat → String → List Char → Option (Option String × List XNode × List Char)
  | 0, _, _ => none
  | fuel + 1, tag, cs =>
    let (txt, cs1) := cs.span (fun ch => ch ≠ '<')
    let text0 : Option String := if txt.isEmpty then none else some (String.mk txt)
    match cs1 with
    | '<' :: '/' :: cs2 =>
      let (nm, cs3) := cs2.span isNameChar
      if String.mk nm = tag then
        match skipWs cs3 with
        | '>' :: cs4 => some (text0, [], cs4)
        | _ => none
      else none
    | '<' :: _ =>
      match parseXmlElement fuel cs1 with
      | none => none
      | some (child, cs2) =>
        match parseXmlBody fuel tag cs2 with
        | none => none
        | some (_, siblings, rest) => some (text0, child :: siblings, rest)
    | _ => none

end

/-- Modelled from the spec: the external `xml.etree.ElementTree.fromstring`
used by `Component.parse` (§4.1, §6), on the XML subset this serializer
emits.  Well-formed input yields the element tree; anything else yields the
syntax error message of the parser. -/
def fromstringModel (s : String) : Except String XNode :=
  match parseXmlElement (s.length + 16) (skipWs s.data) with
  | some (n, rest) =>
    if (skipWs rest).isEmpty then .ok n
    else .error "junk after document element"
  | none => .error "syntax error"

/-! ## Theorems -/

/-- A no-op `add_screenshot` call: a reference already in the list. -/
theorem add_screenshot_ref_mem {c : List Nat} {r : Nat} (h : r ∈ c) :
    add_screenshot_ref c r = c := by
  simp only [add_screenshot_ref]
  rw [if_pos (List.elem_eq_true_of_mem h)]

/-- An appending `add_screenshot` call: a reference not yet in the list. -/
theorem add_screenshot_ref_not_mem {c : List Nat} {r : Nat} (h : r ∉ c) :
    add_screenshot_ref c r = c ++ [r] := by
  simp only [add_screenshot_ref]
  rw [if_neg (fun hc => h (List.mem_of_elem_eq_true hc))]

/-- C3 counterexample store: every reference holds the same field values. -/
def c3store : Nat → Screenshot := fun _ => { kind := some "default" }

/-- C3: the claim is false as stated.  Reference `1` holds field values fully
equal to those of reference `0`, which is already in the screenshots
sequence, yet `add_screenshot` with reference `1` appends it: the sequence
changes.  Dedup is by Python object identity (`in` with default `==`), not
by structural equality. -/
theorem C3_counterexample :
    c3store 1 = c3store 0 ∧ (1 : Nat) ∉ ([0] : List Nat) ∧
    add_screenshot_ref [0] 1 = [0, 1] ∧ add_screenshot_ref [0] 1 ≠ [0] := by
  refine ⟨rfl, by decide, ?_, by decide⟩
  have := add_screenshot_ref_not_mem (c := [0]) (r := 1) (by decide)
  simpa using this

/-- C3 (amended): `Component.add_screenshot` dedups by object identity.
Adding a reference already in the sequence is a no-op; a distinct reference
is appended even when the screenshot value it holds is fully equal to that of
an existing entry. -/
theorem C3_add_screenshot_identity (store : Nat → Screenshot) (c : List Nat) (r rOther : Nat)
    (hmem : r ∈ c) (hval : store rOther = store r) :
    add_screenshot_ref c r = c ∧
    (rOther ∉ c → add_screenshot_ref c rOther = c ++ [rOther]) :=
  ⟨add_screenshot_ref_mem hmem, fun h => add_screenshot_ref_not_mem h⟩

/-- C3 witness: the amended statement applied at a concrete store and list. -/
theorem C3_add_screenshot_identity_witness :
    add_screenshot_ref [0] 0 = [0] ∧ ((1 : Nat) ∉ ([0] : List Nat) → add_screenshot_ref [0] 1 = [0] ++ [1]) :=
  C3_add_screenshot_identity c3store [0] 0 1 (by decide) rfl

/-- C4: the four keep-first add operations.  A candidate whose natural key
(`version`, `id`, `value`, `value`) matches an existing entry is discarded
and the component is unchanged; adding a second entity with the same key
right after a first add is always a no-op, so the collection and in
particular its length are unchanged (first-wins). -/
theorem C4_add_first_wins (c : Component) (rel rel2 : Release) (rev rev2 : Review)
    (prov prov2 : Provide) (req req2 : Require) :
    ((∃ r ∈ c.releases, r.version = rel.version) → c.add_release rel = c) ∧
    (rel2.version = rel.version →
      (c.add_release rel).add_release rel2 = c.add_release rel) ∧
    ((∃ r ∈ c.reviews, r.id = rev.id) → c.add_review rev = c) ∧
    (rev2.id = rev.id → (c.add_review rev).add_review rev2 = c.add_review rev) ∧
    ((∃ p ∈ c.provides, p.value = prov.value) → c.add_provide prov = c) ∧
    (prov2.value = prov.value →
      (c.add_provide prov).add_provide prov2 = c.add_provide prov) ∧
    ((∃ p ∈ c.requires, p.value = req.value) → c.add_require req = c) ∧
    (req2.value = req.value →
      (c.add_require req).add_require req2 = c.add_require req) := by
  refine ⟨fun h => ?_, fun h => ?_, fun h => ?_, fun h => ?_,
    fun h => ?_, fun h => ?_, fun h => ?_, fun h => ?_⟩
  · simp only [Component.add_release, List.any_eq_true, beq_iff_eq]
    rw [if_pos]
    obtain ⟨x, hx, he⟩ := h
    exact ⟨x, hx, he⟩
  · by_cases hc : c.releases.any (fun r => r.version == rel.version)
    · simp [Component.add_release, hc, h]
    · simp only [Component.add_release, hc, if_neg, Bool.false_eq_true, not_false_iff,
        if_false]
      rw [if_pos]
      simp [List.any_eq_true, h]
  · simp only [Component.add_review, List.any_eq_true, beq_iff_eq]
    rw [if_pos]
    obtain ⟨x, hx, he⟩ := h
    exact ⟨x, hx, he⟩
  · by_cases hc : c.reviews.any (fun r => r.id == rev.id)
    · simp [Component.add_review, hc, h]
    · simp only [Component.add_review, hc, if_neg, Bool.false_eq_true, not_false_iff,
        if_false]
      rw [if_pos]
      simp [List.any_eq_true, h]
  · simp only [Component.add_provide, List.any_eq_true, beq_iff_eq]
    rw [if_pos]
    obtain ⟨x, hx, he⟩ := h
    exact ⟨x, hx, he⟩
  · by_cases hc : c.provides.any (fun p => p.value == prov.value)
    · simp [Component.add_provide, hc, h]
    · simp only [Component.add_provide, hc, if_neg, Bool.false_eq_true, not_false_iff,
        if_false]
      rw [if_pos]
      simp [List.any_eq_true, h]
  · simp only [Component.add_require, List.any_eq_true, beq_iff_eq]
    rw [if_pos]
    obtain ⟨x, hx, he⟩ := h
    exact ⟨x, hx, he⟩
  · by_cases hc : c.requires.any (fun p => p.value == req.value)
    · simp [Component.add_require, hc, h]
    · simp only [Component.add_require, hc, if_neg, Bool.false_eq_true, not_false_iff,
        if_false]
      rw [if_pos]
      simp [List.any_eq_true, h]

/-- A concrete component for the C4 witness. -/
def c4comp : Component :=
  { releases := [{ version := some "1.0", timestamp := 7 }],
    reviews := [{ id := some "17" }],
    provides := [{ kind := some "firmware-flashed", value := some "abc" }],
    requires := [{ kind := some "id", value := some "org.freedesktop.fwupd" }] }

/-- C4 witness: the theorem applied at concrete entities whose keys collide
with the existing entries. -/
theorem C4_add_first_wins_witness :
    c4comp.add_release { version := some "1.0", timestamp := 9 } = c4comp ∧
    (c4comp.add_review { id := some "17", karma := 1 }) = c4comp ∧
    (c4comp.add_release { version := some "2.0" }).add_release { version := some "2.0" } =
      c4comp.add_release { version := some "2.0" } := by
  have h1 := (C4_add_first_wins c4comp { version := some "1.0", timestamp := 9 }
    { version := some "1.0", timestamp := 9 } { id := some "17", karma := 1 }
    { id := some "17", karma := 1 } {} {} {} {}).1 (by decide)
  have h2 := (C4_add_first_wins c4comp {} {} { id := some "17", karma := 1 }
    { id := some "17", karma := 1 } {} {} {} {}).2.2.1 (by decide)
  have h3 := (C4_add_first_wins c4comp { version := some "2.0" }
    { version := some "2.0" } {} {} {} {} {} {}).2.1 rfl
  exact ⟨h1, h2, h3⟩

/-- C10: `Checksum.to_xml` never reads the `kind` field (two checksums
differing only in `kind` serialize identically), always renders the fixed
`type="sha1"` attribute and the `filename`/`target` attributes and value text
unconditionally, and renders unset fields as the literal `None`. -/
theorem C10_checksum_to_xml_fixed :
    (∀ k k2 t v f, Checksum.toXml ⟨k, t, v, f⟩ = Checksum.toXml ⟨k2, t, v, f⟩) ∧
    (∀ c : Checksum, c.toXml =
      "        <checksum filename=\"" ++ pyFmt c.filename ++ "\" target=\"" ++
        pyFmt c.target ++ "\" type=\"sha1\">" ++ pyFmt c.value ++ "</checksum>\n") ∧
    (∀ k, Checksum.toXml ⟨k, none, none, none⟩ =
      "        <checksum filename=\"None\" target=\"None\" type=\"sha1\">None</checksum>\n") :=
  ⟨fun _ _ _ _ _ => rfl, fun _ => rfl, fun _ => rfl⟩

/-- The helper `removeFirst` yields a sublist. -/
theorem removeFirst_sublist (p : α → Bool) (l : List α) : (removeFirst p l).Sublist l := by
  induction l with
  | nil => simp [removeFirst]
  | cons x xs ih =>
    simp only [removeFirst]
    by_cases hx : p x
    · simp [hx, List.sublist_cons_self]
    · simpa [hx] using ih.cons₂ x

/-- Over a list whose keys are pairwise distinct, removing the first entry
with key `k` leaves no entry with key `k`.  `p` is the membership test used
by the source loop, assumed to decide `key a = k`. -/
theorem removeFirst_key_not_mem {α β : Type} (key : α → β) (k : β) (p : α → Bool)
    (hpk : ∀ a, p a = true ↔ key a = k)
    (l : List α) (hp : l.Pairwise (fun a b => key a ≠ key b)) :
    ∀ x ∈ removeFirst p l, key x ≠ k := by
  induction l with
  | nil => simp [removeFirst]
  | cons a t ih =>
    rw [List.pairwise_cons] at hp
    simp only [removeFirst]
    by_cases ha : key a = k
    · rw [if_pos ((hpk a).mpr ha)]
      intro x hx hk
      exact hp.1 x hx (by rw [ha, hk])
    · rw [if_neg (fun hc => ha ((hpk a).mp hc))]
      intro x hx
      rcases List.mem_cons.mp hx with rfl | hx2
      · exact ha
      · exact ih hp.2 x hx2

/-- If no entry of the first list satisfies the predicate, `find?` over the
append searches only the second list. -/
theorem find?_append_of_none {p : α → Bool} {l₁ : List α} (l₂ : List α)
    (h : ∀ x ∈ l₁, ¬ p x) : (l₁ ++ l₂).find? p = l₂.find? p := by
  induction l₁ with
  | nil => simp
  | cons a t ih =>
    have ha : p a = false := by simpa using h a (by simp)
    simp only [List.cons_append, List.find?_cons, ha]
    exact ih (fun x hx => h x (by simp [hx]))

/-- At most one checksum per `target` (the C5 invariant on a Release). -/
def targetsDistinct (cs : List Checksum) : Prop :=
  cs.Pairwise (fun a b => a.target ≠ b.target)

/-- At most one image per `kind` (the C5 invariant on a Screenshot). -/
def kindsDistinct (ims : List Image) : Prop :=
  ims.Pairwise (fun a b => a.kind ≠ b.kind)

/-- After removing the first same-target checksum, no same-target checksum
remains (under the invariant). -/
theorem removeFirst_target_clear {r : Release} (c : Checksum)
    (hp : targetsDistinct r.checksums) :
    ∀ x ∈ removeFirst (fun t => t.target == c.target) r.checksums, x.target ≠ c.target :=
  removeFirst_key_not_mem Checksum.target c.target _ (fun a => beq_iff_eq) r.checksums hp

/-- After removing the first same-kind image, no same-kind image remains
(under the invariant). -/
theorem removeFirst_kind_clear {s : Screenshot} (im : Image)
    (hp : kindsDistinct s.images) :
    ∀ x ∈ removeFirst (fun t => t.kind == im.kind) s.images, x.kind ≠ im.kind :=
  removeFirst_key_not_mem Image.kind im.kind _ (fun a => beq_iff_eq) s.images hp

/-- The operation `add_checksum` preserves the at-most-one-per-target invariant. -/
theorem add_checksum_targetsDistinct {r : Release} (c : Checksum)
    (hp : targetsDistinct r.checksums) : targetsDistinct (r.add_checksum c).checksums := by
  unfold targetsDistinct Release.add_checksum at *
  rw [List.pairwise_append]
  refine ⟨hp.sublist (removeFirst_sublist _ _), by simp, ?_⟩
  intro a ha b hb
  have := removeFirst_target_clear c hp a ha
  simp only [List.mem_singleton] at hb
  rw [hb]
  exact this

/-- The operation `add_image` preserves the at-most-one-per-kind invariant. -/
theorem add_image_kindsDistinct {s : Screenshot} (im : Image)
    (hp : kindsDistinct s.images) : kindsDistinct (s.add_image im).images := by
  unfold kindsDistinct Screenshot.add_image at *
  rw [List.pairwise_append]
  refine ⟨hp.sublist (removeFirst_sublist _ _), by simp, ?_⟩
  intro a ha b hb
  have := removeFirst_kind_clear im hp a ha
  simp only [List.mem_singleton] at hb
  rw [hb]
  exact this

/-- C5: `Release.add_checksum` and `Screenshot.add_image` replace by key and
append at the end.  Starting from any list satisfying the at-most-one-per-key
invariant (a fresh Release/Screenshot starts empty, which satisfies it), the
invariant is preserved by each call and by any sequence of calls, the new
entry is the last element (after all distinct-key entries), and the keyed
lookup afterwards returns the new entry — the later value wins. -/
theorem C5_replace_semantics (r : Release) (c : Checksum) (s : Screenshot) (im : Image)
    (calls : List Checksum) (icalls : List Image)
    (hr : targetsDistinct r.checksums) (hs : kindsDistinct s.images) :
    targetsDistinct (r.add_checksum c).checksums ∧
    (r.add_checksum c).checksums.getLast? = some c ∧
    (r.add_checksum c).get_checksum_by_target c.target = some c ∧
    targetsDistinct ((calls.foldl Release.add_checksum r).checksums) ∧
    kindsDistinct (s.add_image im).images ∧
    (s.add_image im).images.getLast? = some im ∧
    (s.add_image im).get_image_by_kind im.kind = some im ∧
    kindsDistinct ((icalls.foldl Screenshot.add_image s).images) := by
  refine ⟨add_checksum_targetsDistinct c hr, ?_, ?_, ?_,
    add_image_kindsDistinct im hs, ?_, ?_, ?_⟩
  · simp [Release.add_checksum]
  · unfold Release.get_checksum_by_target Release.add_checksum
    rw [find?_append_of_none _ (fun x hx hpx =>
      removeFirst_target_clear c hr x hx (by simpa using hpx))]
    simp [List.find?]
  · induction calls generalizing r with
    | nil => exact hr
    | cons x xs ih => exact ih _ (add_checksum_targetsDistinct x hr)
  · simp [Screenshot.add_image]
  · unfold Screenshot.get_image_by_kind Screenshot.add_image
    rw [find?_append_of_none _ (fun x hx hpx =>
      removeFirst_kind_clear im hs x hx (by simpa using hpx))]
    simp [List.find?]
  · induction icalls generalizing s with
    | nil => exact hs
    | cons x xs ih => exact ih _ (add_image_kindsDistinct x hs)

/-- A release holding one checksum of target `content`, for the C5 witness
(the checksum-replace scenario of the spec). -/
def c5rel : Release :=
  { checksums := [{ target := some "container", value := some "aaaa" },
                  { target := some "content", value := some "deadbeef" }] }

/-- The replacing checksum of the C5 witness scenario: same target
`content`, different value. -/
def c5new : Checksum := { target := some "content", value := some "beefdead" }

/-- C5 witness: the theorem applied at the checksum-replace scenario of the spec:
one checksum per target afterwards, the new value wins, and the replacing
entry sits after the distinct-target entry. -/
theorem C5_replace_semantics_witness :
    targetsDistinct (c5rel.add_checksum c5new).checksums ∧
    (c5rel.add_checksum c5new).checksums.getLast? = some c5new ∧
    (c5rel.add_checksum c5new).get_checksum_by_target (some "content") = some c5new := by
  have h := C5_replace_semantics c5rel c5new {} {} [] []
    (by unfold targetsDistinct c5rel; decide) (by unfold kindsDistinct; decide)
  exact ⟨h.1, h.2.1, h.2.2.1⟩

/-- The release loop of `validate` succeeds when every release has a truthy
version and a nonzero timestamp. -/
theorem validateReleases_ok (rels : List Release)
    (h : ∀ r ∈ rels, strTruthy r.version ∧ r.timestamp ≠ 0) :
    validateReleases rels = .ok () := by
  induction rels with
  | nil => rfl
  | cons r rest ih =>
    obtain ⟨h1, h2⟩ := h r (by simp)
    simp only [validateReleases, h1, h2]
    simp only [not_true, if_false, if_neg (by simp [h2] : ¬ r.timestamp = 0)]
    exact ih (fun x hx => h x (by simp [hx]))

/-- C6: `validate` fails fast in the fixed check order.  A firmware component
with non-empty id, name, summary, description, a valid metadata license,
non-empty project license and developer name, zero provides and one release
fails with the "no provides" rule, not any later rule. -/
theorem C6_validate_fail_fast (c : Component)
    (hkind : c.kind = some "firmware")
    (hid : strTruthy c.id) (hname : strTruthy c.name)
    (hsum : strTruthy c.summary) (hdesc : strTruthy c.description)
    (hlic : ∃ l ∈ valid_licenses, c.metadata_license = some l)
    (hproj : strTruthy c.project_license) (hdev : strTruthy c.developer_name)
    (hprov : c.provides = []) (hrel : c.releases.length = 1) :
    c.validate = .error "No <provides> tag" := by
  unfold Component.validate
  rw [if_neg (by simp [hid]), if_neg (by simp [hname]), if_neg (by simp [hsum]),
    if_neg (by simp [hdesc]), if_pos ⟨hkind, by simp [hprov]⟩]

/-- A component matching the C6 scenario. -/
def c6comp : Component :=
  { id := some "com.example.fw", kind := some "firmware", name := some "Example FW",
    summary := some "s", description := some "<p>d</p>",
    metadata_license := some "CC0-1.0", project_license := some "GPL-2.0+",
    developer_name := some "Dev", provides := [],
    releases := [{ version := some "1.0", timestamp := 1000000000 }] }

/-- C6 witness: the theorem applied at the concrete scenario component. -/
theorem C6_validate_fail_fast_witness : c6comp.validate = .error "No <provides> tag" :=
  C6_validate_fail_fast c6comp rfl (by decide) (by decide) (by decide) (by decide)
    ⟨"CC0-1.0", by decide, rfl⟩ (by decide) (by decide) rfl rfl

/-- C7: with every other required field in place, `validate` succeeds exactly
when `metadata_license` is a member of the fixed allow-list
CC0-1.0, CC-BY-3.0, CC-BY-4.0, CC-BY-SA-3.0, CC-BY-SA-4.0, GFDL-1.1,
GFDL-1.2, GFDL-1.3, FSFAP. -/
theorem C7_metadata_license_allow_list (c : Component)
    (hid : strTruthy c.id) (hname : strTruthy c.name)
    (hsum : strTruthy c.summary) (hdesc : strTruthy c.description)
    (hfw : c.kind = some "firmware" → c.provides ≠ [] ∧ c.releases ≠ [])
    (hdesk : c.kind = some "desktop" → c.screenshots ≠ [])
    (hproj : strTruthy c.project_license) (hdev : strTruthy c.developer_name)
    (hrels : ∀ r ∈ c.releases, strTruthy r.version ∧ r.timestamp ≠ 0) :
    c.validate = .ok () ↔ ∃ l ∈ valid_licenses, c.metadata_license = some l := by
  unfold Component.validate
  rw [if_neg (by simp [hid]), if_neg (by simp [hname]), if_neg (by simp [hsum]),
    if_neg (by simp [hdesc]),
    if_neg (by rintro ⟨h1, h2⟩; exact (hfw h1).1 (List.isEmpty_iff.mp h2)),
    if_neg (by rintro ⟨h1, h2⟩; exact (hfw h1).2 (List.isEmpty_iff.mp h2)),
    if_neg (by rintro ⟨h1, h2⟩; exact hdesk h1 (List.isEmpty_iff.mp h2))]
  constructor
  · intro hok
    by_cases hml : strTruthy c.metadata_license
    · rw [if_neg (by simp [hml])] at hok
      by_cases hmem : valid_licenses.any (fun l => c.metadata_license == some l)
      · simpa [List.any_eq_true, beq_iff_eq] using hmem
      · rw [if_pos (by simpa using hmem)] at hok
        exact absurd hok (by simp)
    · rw [if_pos (by simp [hml])] at hok
      exact absurd hok (by simp)
  · rintro ⟨l, hl, hml⟩
    have hne : l ≠ "" := by
      simp only [valid_licenses, List.mem_cons, List.not_mem_nil, or_false] at hl
      rcases hl with rfl | rfl | rfl | rfl | rfl | rfl | rfl | rfl | rfl <;> decide
    rw [if_neg (by simp [strTruthy, hml, hne]),
      if_neg (by simp [List.any_eq_true, beq_iff_eq]; exact ⟨l, hl, hml⟩),
      if_neg (by simp [hproj]), if_neg (by simp [hdev])]
    exact validateReleases_ok c.releases hrels

/-- The C7 scenario component with the allowed license CC0-1.0. -/
def c7good : Component :=
  { c6comp with provides := [{ kind := some "firmware-flashed", value := some "abc" }] }

/-- The C7 scenario component with the disallowed license MIT. -/
def c7bad : Component := { c7good with metadata_license := some "MIT" }

/-- C7 witness: the theorem applied at the two concrete scenario components:
CC0-1.0 passes validation, MIT fails it. -/
theorem C7_metadata_license_allow_list_witness :
    c7good.validate = .ok () ∧ ¬ c7bad.validate = .ok () := by
  constructor
  · exact (C7_metadata_license_allow_list c7good (by decide) (by decide) (by decide)
      (by decide) (fun _ => by decide) (fun h => by simp [c7good, c6comp] at h)
      (by decide) (by decide) (by decide)).mpr ⟨"CC0-1.0", by decide, rfl⟩
  · intro hok
    have := (C7_metadata_license_allow_list c7bad (by decide) (by decide) (by decide)
      (by decide) (fun _ => by decide) (fun h => by simp [c7bad, c7good, c6comp] at h)
      (by decide) (by decide) (by decide)).mp hok
    revert this
    decide

/-- The child loop of `Release._parse_tree` never touches `timestamp` or
`version`: one step preserves both. -/
theorem sizeInstalled_preserves {t : String} {c3 : XNode} {r r2 : Release}
    (h : Release.sizeInstalled t c3 r = some r2) :
    r2.timestamp = r.timestamp ∧ r2.version = r.version := by
  unfold Release.sizeInstalled at h
  split at h
  · rcases Option.map_eq_some'.mp h with ⟨n, _, he⟩; subst he; exact ⟨rfl, rfl⟩
  · simp only [Option.some_inj] at h; subst h; exact ⟨rfl, rfl⟩

theorem sizeDownload_preserves {t : String} {c3 : XNode} {r r2 : Release}
    (h : Release.sizeDownload t c3 r = some r2) :
    r2.timestamp = r.timestamp ∧ r2.version = r.version := by
  unfold Release.sizeDownload at h
  split at h
  · rcases Option.map_eq_some'.mp h with ⟨n, _, he⟩; subst he; exact ⟨rfl, rfl⟩
  · simp only [Option.some_inj] at h; subst h; exact ⟨rfl, rfl⟩

theorem release_parseChild_preserves {r r2 : Release} {c3 : XNode}
    (h : Release.parseChild r c3 = some r2) :
    r2.timestamp = r.timestamp ∧ r2.version = r.version := by
  have hr1 : ∀ r1 : Release,
      (if c3.tag = "description" then { r with description := some (parseDesc c3) } else r) = r1 →
      r1.timestamp = r.timestamp ∧ r1.version = r.version := by
    intro r1 he
    subst he
    split <;> exact ⟨rfl, rfl⟩
  unfold Release.parseChild at h
  obtain ⟨hts, hver⟩ := hr1 _ rfl
  set r1 := if c3.tag = "description" then { r with description := some (parseDesc c3) } else r
  rw [← hts, ← hver]
  clear hts hver
  split at h
  · -- size branch
    split at h
    · simp only [Option.some_inj] at h
      subst h; exact ⟨rfl, rfl⟩
    · rcases Option.bind_eq_some.mp h with ⟨rA, hA, hB⟩
      obtain ⟨hA1, hA2⟩ := sizeInstalled_preserves hA
      obtain ⟨hB1, hB2⟩ := sizeDownload_preserves hB
      exact ⟨hB1.trans hA1, hB2.trans hA2⟩
  · split at h
    · -- checksum branch
      simp only [Option.some_inj] at h
      subst h
      simp [Release.add_checksum]
    · simp only [Option.some_inj] at h
      subst h; exact ⟨rfl, rfl⟩

/-- The whole child loop preserves `timestamp` and `version`. -/
theorem release_fold_preserves {l : List XNode} {r r2 : Release}
    (h : l.foldlM Release.parseChild r = some r2) :
    r2.timestamp = r.timestamp ∧ r2.version = r.version := by
  induction l generalizing r with
  | nil =>
    simp only [List.foldlM_nil, Option.pure_def, Option.some_inj] at h
    subst h; exact ⟨rfl, rfl⟩
  | cons x xs ih =>
    rw [List.foldlM_cons] at h
    cases hx : Release.parseChild r x with
    | none => rw [hx] at h; simp at h
    | some r1 =>
      rw [hx] at h
      simp only [Option.bind_eq_bind, Option.some_bind] at h
      obtain ⟨h1, h2⟩ := release_parseChild_preserves hx
      obtain ⟨h3, h4⟩ := ih h
      exact ⟨h3.trans h1, h4.trans h2⟩

/-- The `urgency` stage preserves `timestamp` and `version`. -/
theorem attrUrgency_preserves (node : XNode) (r : Release) :
    (Release.attrUrgency node r).timestamp = r.timestamp ∧
    (Release.attrUrgency node r).version = r.version := by
  unfold Release.attrUrgency
  split <;> exact ⟨rfl, rfl⟩

/-- The `version` stage preserves `timestamp`. -/
theorem attrVersion_preserves_timestamp {node : XNode} {r r2 : Release}
    (h : Release.attrVersion node r = some r2) : r2.timestamp = r.timestamp := by
  unfold Release.attrVersion at h
  split at h
  · split at h
    · rcases Option.map_eq_some'.mp h with ⟨n, hn, he⟩; subst he; rfl
    · simp only [Option.some_inj] at h; subst h; rfl
  · simp only [Option.some_inj] at h; subst h; rfl

/-- When both a `timestamp` and a `date` attribute are present and evaluated,
the attribute stages leave the `date`-derived value in `timestamp`. -/
theorem parseAttrs_date_wins {dateFn : String → Option Int} {node : XNode}
    {r r2 : Release} {ts d : String} {n : Int}
    (h1 : lookup node.attrib "timestamp" = some ts)
    (h2 : lookup node.attrib "date" = some d)
    (h3 : dateFn d = some n)
    (h : Release.parseAttrs dateFn node r = some r2) :
    r2.timestamp = n := by
  unfold Release.parseAttrs at h
  rcases Option.bind_eq_some.mp h with ⟨rT, hT, h4⟩
  rcases Option.bind_eq_some.mp h4 with ⟨rD, hD, h5⟩
  have hDts : rD.timestamp = n := by
    unfold Release.attrDate at hD
    rw [h2] at hD
    simp only [h3, Option.map_some', Option.some_inj] at hD
    subst hD; rfl
  have h6 := attrVersion_preserves_timestamp h5
  rw [h6, (attrUrgency_preserves node rD).1, hDts]

/-- C1 (amended): for a release element carrying both a `timestamp` and a
`date` attribute, a successful parse sets the `timestamp` field of the Release to
the `date`-derived Unix seconds — the `date` attribute is evaluated after
and therefore wins, not the `timestamp` attribute. -/
theorem C1_date_overwrites_timestamp (dateFn : String → Option Int) (node : XNode)
    (r r2 : Release) (ts d : String) (n : Int)
    (h1 : lookup node.attrib "timestamp" = some ts)
    (h2 : lookup node.attrib "date" = some d)
    (h3 : dateFn d = some n)
    (h : Release.parseTree dateFn node r = some r2) :
    r2.timestamp = n := by
  unfold Release.parseTree at h
  rcases Option.bind_eq_some.mp h with ⟨rA, hA, hF⟩
  rw [(release_fold_preserves hF).1]
  exact parseAttrs_date_wins h1 h2 h3 hA

/-- The release element of the C1 scenario: both attributes present, as in
the test document of the repository itself. -/
def c1node : XNode :=
  .node "release" [("timestamp", "1438454314"), ("date", "2016-02-25")] none []

/-- The external date parser of the C1 scenario: 2016-02-25 is Unix second
1456358400 (the value the repository test asserts). -/
def c1dateFn : String → Option Int :=
  fun s => if s = "2016-02-25" then some 1456358400 else none

/-- The release parsed in the C1 scenario. -/
def c1rel : Release :=
  (Release.parseTree c1dateFn c1node {}).getD {}

/-- C1 counterexample: the claim is false as stated.  The element carries
`timestamp="1438454314"` and a `date` attribute, yet parsing sets the
release timestamp to the `date`-derived 1456358400, not to 1438454314:
the `date` branch runs after the `timestamp` branch and overwrites it (the
repository test asserts 1456358400 for exactly this attribute pair). -/
theorem C1_counterexample :
    Release.parseTree c1dateFn c1node {} = some c1rel ∧
    c1rel.timestamp = 1456358400 ∧ (1456358400 : Int) ≠ 1438454314 := by
  refine ⟨by decide, by decide, by decide⟩

/-- C1 witness: the amended theorem applied at the concrete scenario
element. -/
theorem C1_date_overwrites_timestamp_witness : c1rel.timestamp = 1456358400 :=
  C1_date_overwrites_timestamp c1dateFn c1node {} c1rel "1438454314" "2016-02-25"
    1456358400 rfl rfl rfl (by decide)

/-- The `version` stage rewrites a `0x`-prefixed version to the decimal
string of its hexadecimal value. -/
theorem attrVersion_hex {node : XNode} {r r2 : Release} {v : String} {n : Nat}
    (hv : lookup node.attrib "version" = some v)
    (hpre : strStartsWith v "0x")
    (hhex : hexNat? (strDrop v 2) = some n)
    (h : Release.attrVersion node r = some r2) :
    r2.version = some (toString n) := by
  unfold Release.attrVersion at h
  rw [hv] at h
  simp only [hpre, if_true, hhex, Option.map_some', Option.some_inj] at h
  subst h; rfl

/-- C9: a release element whose version attribute begins with `0x` followed
by hexadecimal digits (the digits evaluating to `n` through `int(_, 16)`)
parses, when it succeeds, to a Release whose version is the decimal string
form of `n`. -/
theorem C9_hex_version_fixup (dateFn : String → Option Int) (node : XNode)
    (r r2 : Release) (v : String) (n : Nat)
    (hv : lookup node.attrib "version" = some v)
    (hpre : strStartsWith v "0x")
    (hhex : hexNat? (strDrop v 2) = some n)
    (h : Release.parseTree dateFn node r = some r2) :
    r2.version = some (toString n) := by
  unfold Release.parseTree at h
  rcases Option.bind_eq_some.mp h with ⟨rA, hA, hF⟩
  rw [(release_fold_preserves hF).2]
  unfold Release.parseAttrs at hA
  rcases Option.bind_eq_some.mp hA with ⟨rT, hT, h4⟩
  rcases Option.bind_eq_some.mp h4 with ⟨rD, hD, h5⟩
  exact attrVersion_hex hv hpre hhex h5

/-- The release element of the C9 scenario: `version="0x0A"`. -/
def c9node : XNode := .node "release" [("version", "0x0A")] none []

/-- The release parsed in the C9 scenario. -/
def c9rel : Release := (Release.parseTree (fun _ => none) c9node {}).getD {}

/-- C9 witness: the theorem applied at `version="0x0A"`, yielding version
`"10"`. -/
theorem C9_hex_version_fixup_witness :
    c9rel.version = some "10" := by
  have h : hexNat? (strDrop "0x0A" 2) = some 10 := by decide
  have := C9_hex_version_fixup (fun _ => none) c9node {} c9rel "0x0A" 10
    rfl (by decide) h (by decide)
  simpa using this

/-- Equality on `Except` results is decidable when both components are. -/
instance {e a : Type} [DecidableEq e] [DecidableEq a] : DecidableEq (Except e a) := fun x y =>
  match x, y with
  | .error v, .error w =>
    if h : v = w then .isTrue (h ▸ rfl) else .isFalse (fun hc => h (by cases hc; rfl))
  | .ok v, .ok w =>
    if h : v = w then .isTrue (h ▸ rfl) else .isFalse (fun hc => h (by cases hc; rfl))
  | .error _, .ok _ => .isFalse (fun hc => by cases hc)
  | .ok _, .error _ => .isFalse (fun hc => by cases hc)

/-- C8: for any input text the XML parser rejects, `Component.parse` fails
with a `ParseError` carrying the underlying syntax error message, and no
partial component is produced: the result carries no component, and the
pre-state `c` is untouched (the exception is raised before any field
assignment, which the embedding reflects by returning only the error). -/
theorem C8_parse_error_no_partial (fromstring : String → Except String XNode)
    (dateFn : String → Option Int) (c : Component) (s e : String)
    (h : fromstring s = .error e) :
    Component.parse fromstring dateFn c (.text s) = .error (.parseError e) := by
  simp only [Component.parse, h]

/-- C8 witness: the theorem applied to the modelled XML parser on the
malformed repository-test input `junk`. -/
theorem C8_parse_error_no_partial_witness :
    Component.parse fromstringModel (fun _ => none) {} (.text "junk") =
      .error (.parseError "syntax error") :=
  C8_parse_error_no_partial fromstringModel (fun _ => none) {} "junk" "syntax error" rfl

/-- The C2 scenario document (a pre-parsed tree, one of the two input forms
`Component.parse` accepts): the minimal conformant firmware component of the spec,
with a sha256 content checksum on its release. -/
def c2doc : XNode :=
  .node "component" [("type", "firmware")] none [
    .node "id" [] (some "com.example.fw") [],
    .node "name" [] (some "Example FW") [],
    .node "summary" [] (some "s") [],
    .node "description" [] none [.node "p" [] (some "d") []],
    .node "metadata_license" [] (some "CC0-1.0") [],
    .node "project_license" [] (some "GPL-2.0+") [],
    .node "developer_name" [] (some "Dev") [],
    .node "provides" [] none [.node "firmware" [("type", "flashed")] (some "abc") []],
    .node "releases" [] none [
      .node "release" [("version", "1.0"), ("timestamp", "1000000000")] none [
        .node "checksum" [("target", "content"), ("filename", "firmware.bin"),
          ("type", "sha256")] (some "deadbeef") []]]]

/-- The external date parser of the C2 scenario (the document carries no
date attributes). -/
def c2dateFn : String → Option Int := fun _ => none

/-- The external ISO formatter of the C2 scenario (the document carries no
reviews). -/
def c2isoFn : Int → String := fun _ => ""

/-- First parse of the C2 scenario document. -/
def c2parse1 : Except PyFailure Component :=
  Component.parse fromstringModel c2dateFn {} (.tree c2doc)

/-- The component populated by the first parse. -/
def c2comp : Component := c2parse1.toOption.getD {}

/-- The XML text serialized from the first parse. -/
def c2serialized : Option String := Component.toXml c2isoFn c2comp

/-- Second parse: `Component.parse` applied to the serialized text. -/
def c2reparse : Except PyFailure Component :=
  match c2serialized with
  | some s => Component.parse fromstringModel c2dateFn {} (.text s)
  | none => .error .otherError

/-- The component populated by the second parse. -/
def c2comp2 : Component := c2reparse.toOption.getD {}

/-- The kind of the first checksum of the first release. -/
def firstChecksumKind (c : Component) : Option String :=
  match c.releases with
  | r :: _ =>
    match r.checksums with
    | cs :: _ => some cs.kind
    | [] => none
  | [] => none

/-- What the serializer actually preserves: every checksum `kind` is
re-parsed as the hardcoded `sha1`, and `metadata_license` — which
`Component.to_xml` never emits at all — comes back unset. -/
def serializerAdjust (c : Component) : Component :=
  { c with
    metadata_license := none
    releases := c.releases.map (fun r =>
      { r with checksums := r.checksums.map (fun cs => { cs with kind := "sha1" }) }) }

set_option maxRecDepth 16384 in
/-- C2 counterexample: the claim is false as stated.  The scenario document
is conformant (it validates), yet serializing and re-parsing does not
reproduce every non-omit-if-default field: the checksum field `kind` = `sha256` is
emitted as the hardcoded `type="sha1"` and re-parses as `sha1`, and the
populated `metadata_license` is never emitted and re-parses as unset —
neither is an omit-if-default. -/
theorem C2_counterexample :
    c2parse1 = .ok c2comp ∧ c2comp.validate = .ok () ∧
    c2reparse = .ok c2comp2 ∧
    firstChecksumKind c2comp = some "sha256" ∧
    firstChecksumKind c2comp2 = some "sha1" ∧
    c2comp.metadata_license = some "CC0-1.0" ∧
    c2comp2.metadata_license = none := by
  decide

set_option maxRecDepth 16384 in
/-- C2 (amended): for the scenario component, serialize-then-reparse
reproduces every field except the two the serializer rewrites or drops:
checksum kinds come back as `sha1` and `metadata_license` comes back unset;
all other field values are reproduced exactly. -/
theorem C2_roundtrip_adjusted :
    c2reparse = .ok (serializerAdjust c2comp) ∧ serializerAdjust c2comp ≠ c2comp := by
  decide

end Appstream
